import Mathlib

/-!
Verification of the sales-bot edge function (`supabase/functions/sales-bot/index.ts`).

The handler is a single request pipeline: CORS preflight, secrets check,
service-account JWT construction (`btoa` over JSON header/claims plus an
RSA signature), OAuth token exchange, Drive folder listing, per-spreadsheet
values retrieval with row consolidation, and a chat-completion call; any
throw is caught at the boundary and mapped to a JSON error envelope.

The embedding below translates each piece of that source file into Lean:
pure string/JSON construction becomes pure functions; each outbound
`fetch` becomes a field of a `World` record describing what the external
collaborator would answer, and the pipeline is a total function from the
environment and that world to a result together with the ordered trace of
outbound network calls it performed.
-/

namespace SalesBot

/-- A discovered spreadsheet: the `files(id,name)` field mask of the Drive
listing request. -/
structure DocumentRef where
  id : String
  name : String
  deriving Repr, DecidableEq

/-- The fixed header line prefixed to the consolidated table
(source line 82, without its trailing newline). -/
def headerLine : String :=
  "data,id_transacao,produto,categoria,regiao,quantidade,preco_unitario,receita_total,mes_origem"

/-- One emitted table line: `row.join(',') + ',' + file.name + '\n'`
(source line 99). -/
def rowLine (row : List String) (name : String) : String :=
  String.intercalate "," row ++ "," ++ name ++ "\n"

/-- The lines one document contributes to the table (source lines 92–103):
if the `values` block is present and has more than one row, every row after
the first (header) row with at least 8 cells is emitted; otherwise nothing. -/
def docLines (values : Option (List (List String))) (name : String) : List String :=
  match values with
  | none => []
  | some vs =>
    if vs.length > 1 then
      (vs.drop 1).filterMap fun row =>
        if 8 ≤ row.length then some (rowLine row name) else none
    else []

/-- The consolidation loop (source lines 82–103): `allData` starts as the
header line plus newline and accumulates each document's lines in
discovery order. -/
def consolidate (docs : List (DocumentRef × Option (List (List String)))) : String :=
  docs.foldl (fun acc d => acc ++ String.join (docLines d.2 d.1.name))
    (headerLine ++ "\n")

/-- Spec-side description of one document's contribution: rows after the
header row with at least 8 cells, serialized as the row's first 8 raw cell
values joined by commas followed by the document name. -/
def specDocLines (values : Option (List (List String))) (name : String) : List String :=
  ((values.getD []).drop 1).filterMap fun row =>
    if 8 ≤ row.length then
      some (String.intercalate "," (row.take 8) ++ "," ++ name ++ "\n")
    else none

/-- Number of data rows a document contributes. -/
def docRowCount (values : Option (List (List String))) (name : String) : Nat :=
  (docLines values name).length

/-! ### JWT construction (source lines 31–56)

The handler builds the assertion with the platform `btoa` — standard
base64 with `=` padding — over the JSON header and claim set, and over the
raw signature bytes via `String.fromCharCode`. -/

/-- The standard base64 alphabet used by `btoa` (not the base64url one). -/
def base64Alphabet : List Char :=
  "ABCDEFGHIJKLMNOPQRSTUVWXYZabcdefghijklmnopqrstuvwxyz0123456789+/".toList

/-- The base64 digit for a 6-bit value. -/
def b64Char (n : Nat) : Char := base64Alphabet.getD n 'A'

/-- Standard base64 with `=` padding over a byte sequence, as `btoa`
produces from a Latin-1 string of these code points. -/
def b64EncodeBytes : List Nat → String
  | [] => ""
  | [b1] => String.mk [b64Char (b1 / 4), b64Char (b1 % 4 * 16), '=', '=']
  | [b1, b2] =>
    String.mk [b64Char (b1 / 4), b64Char (b1 % 4 * 16 + b2 / 16), b64Char (b2 % 16 * 4), '=']
  | b1 :: b2 :: b3 :: rest =>
    String.mk [b64Char (b1 / 4), b64Char (b1 % 4 * 16 + b2 / 16),
      b64Char (b2 % 16 * 4 + b3 / 64), b64Char (b3 % 64)] ++ b64EncodeBytes rest

/-- The platform `btoa` on a Latin-1 string: base64 of its code points. -/
def btoa (s : String) : String := b64EncodeBytes (s.toList.map Char.toNat)

/-- Lower-case hexadecimal digit. -/
def hexDigit (n : Nat) : Char := "0123456789abcdef".toList.getD n '0'

/-- How `JSON.stringify` escapes one character inside a string literal. -/
def jsEscapeChar (c : Char) : String :=
  if c = '"' then "\\\""
  else if c = '\\' then "\\\\"
  else if c = '\x08' then "\\b"
  else if c = '\t' then "\\t"
  else if c = '\n' then "\\n"
  else if c = '\x0c' then "\\f"
  else if c = '\r' then "\\r"
  else if c.toNat < 32 then
    "\\u00" ++ String.mk [hexDigit (c.toNat / 16), hexDigit (c.toNat % 16)]
  else String.singleton c

/-- `JSON.stringify` of a string value. -/
def jsonStr (s : String) : String :=
  "\"" ++ String.join (s.toList.map jsEscapeChar) ++ "\""

/-- The serialized JWT header object of source line 31,
with fields `alg: "RS256"` and `typ: "JWT"` in that order. -/
def jwtHeaderJson : String := "\x7b\"alg\":\"RS256\",\"typ\":\"JWT\"\x7d"

/-- The encoded JWT header (source line 31). -/
def jwtHeader : String := btoa jwtHeaderJson

/-- The serialized claim set of source lines 33–39: keys in insertion
order `iss`, `scope`, `aud`, `exp`, `iat`, with `exp = now + 3600` and
`iat = now`. -/
def claimSetJson (email : String) (now : Nat) : String :=
  "\x7b\"iss\":" ++ jsonStr email
    ++ ",\"scope\":\"https://www.googleapis.com/auth/spreadsheets.readonly https://www.googleapis.com/auth/drive.readonly\""
    ++ ",\"aud\":\"https://oauth2.googleapis.com/token\""
    ++ ",\"exp\":" ++ toString (now + 3600)
    ++ ",\"iat\":" ++ toString now ++ "\x7d"

/-- The encoded claim set (source line 33). -/
def jwtClaimSet (email : String) (now : Nat) : String := btoa (claimSetJson email now)

/-- The assembled assertion of source line 56: encoded header, encoded
claims, and `btoa` over the raw signature bytes, joined by dots. -/
def jwt (email : String) (now : Nat) (sigBytes : List Nat) : String :=
  jwtHeader ++ "." ++ jwtClaimSet email now ++ "." ++ b64EncodeBytes sigBytes

/-- Membership in the base64url alphabet (RFC 4648 §5). -/
def isBase64UrlChar (c : Char) : Bool :=
  c.isAlpha || c.isDigit || c = '-' || c = '_'

/-! ### The request pipeline (source lines 9–171)

Each outbound `fetch` (and each request-local fallible step) is a field of
`World`: what the collaborator would answer if called. The pipeline is a
total function returning the `try` block's outcome together with the
ordered trace of outbound calls actually issued. -/

/-- Outcome of one `fetch` followed by `.json()`: the parsed payload, or a
thrown error (network rejection or JSON-parse failure). -/
inductive FetchResult (α : Type) where
  | ok : α → FetchResult α
  | netErr : String → FetchResult α

/-- The parsed service-account JSON file's fields the handler uses. -/
structure ServiceAccount where
  client_email : String
  private_key : String

/-- The completion endpoint's reply as the handler observes it: the HTTP
`ok` flag and status, and the outcome of extracting
`choices[0].message.content` from the JSON body (`error` when the shape is
absent and the access throws). -/
structure AIResponse where
  ok : Bool
  status : Nat
  content : Except String String

/-- The request environment: the two secrets as `Deno.env.get` returns
them (`none` = unset). -/
structure Env where
  serviceAccount : Option String
  lovableApiKey : Option String

/-- JavaScript falsiness of a `string | undefined` value: `undefined` and
the empty string are falsy. -/
def falsy : Option String → Bool
  | none => true
  | some s => s == ""

/-- What the collaborators would answer during one request. -/
structure World where
  /-- The result of `req.json()` destructured to `query` and `folderId`
  (source line 15); `error` = the body is not valid JSON and it throws. -/
  body : Except String (String × String)
  /-- The result of parsing the service-account JSON (source line 27). -/
  saParse : Except String ServiceAccount
  /-- The JWT construction and signing steps (source lines 31–56): the
  signature bytes, or the message thrown by `btoa` on non-Latin-1 input,
  `importKey` on a malformed key, or `sign`. -/
  sign : Except String (List Nat)
  /-- The OAuth token endpoint (source lines 59–65): the parsed JSON's
  `access_token` field; `ok none` = a body without that field. -/
  tokenExchange : FetchResult (Option String)
  /-- The Drive listing (source lines 69–74): the parsed JSON's `files`
  field. -/
  driveList : FetchResult (Option (List DocumentRef))
  /-- The Sheets values endpoint per document id (source lines 87–92):
  the parsed JSON's `values` field. -/
  sheetValues : String → FetchResult (Option (List (List String)))
  /-- The chat-completion endpoint (source lines 131–154). -/
  ai : FetchResult AIResponse

/-- One outbound network call, recorded in the order the handler issues
them. -/
inductive NetCall where
  | tokenExchange
  | driveList
  | sheetRead (id : String)
  | completion
  deriving Repr, DecidableEq

/-- The sequential read loop (source lines 84–103): one Sheets call per
document in discovery order, appending that document's lines to the
accumulator; a thrown fetch aborts the remaining documents. -/
def readSheets (sv : String → FetchResult (Option (List (List String)))) :
    List DocumentRef → String → Except String String × List NetCall
  | [], acc => (.ok acc, [])
  | f :: rest, acc =>
    match sv f.id with
    | .netErr e => (.error e, [.sheetRead f.id])
    | .ok values =>
      let res := readSheets sv rest (acc ++ String.join (docLines values f.name))
      (res.1, .sheetRead f.id :: res.2)

/-- The body of the handler's `try` block (source lines 15–161): each
`throw` becomes `Except.error` with the thrown message, and the second
component records the outbound calls made before the outcome. Note that
after the token exchange the source destructures `access_token` without
checking the HTTP status or the field's presence, so an `ok` fetch always
continues into discovery. -/
def runPipeline (env : Env) (w : World) : Except String String × List NetCall :=
  match w.body with
  | .error e => (.error e, [])
  | .ok _ =>
    if falsy env.serviceAccount || falsy env.lovableApiKey then
      (.error "Missing required secrets", [])
    else
      match w.saParse with
      | .error e => (.error e, [])
      | .ok _ =>
        match w.sign with
        | .error e => (.error e, [])
        | .ok _ =>
          match w.tokenExchange with
          | .netErr e => (.error e, [.tokenExchange])
          | .ok _accessToken =>
            match w.driveList with
            | .netErr e => (.error e, [.tokenExchange, .driveList])
            | .ok none => (.error "No spreadsheets found in folder", [.tokenExchange, .driveList])
            | .ok (some files) =>
              if files.length = 0 then
                (.error "No spreadsheets found in folder", [.tokenExchange, .driveList])
              else
                match readSheets w.sheetValues files (headerLine ++ "\n") with
                | (.error e, calls) => (.error e, [.tokenExchange, .driveList] ++ calls)
                | (.ok _allData, calls) =>
                  match w.ai with
                  | .netErr e =>
                    (.error e, [.tokenExchange, .driveList] ++ calls ++ [.completion])
                  | .ok r =>
                    if !r.ok then
                      (.error ("AI API error: " ++ toString r.status),
                        [.tokenExchange, .driveList] ++ calls ++ [.completion])
                    else
                      match r.content with
                      | .error e =>
                        (.error e, [.tokenExchange, .driveList] ++ calls ++ [.completion])
                      | .ok answer =>
                        (.ok answer, [.tokenExchange, .driveList] ++ calls ++ [.completion])

/-- A JSON value, as far as the handler's response bodies need. -/
inductive Json where
  | str : String → Json
  | obj : List (String × Json) → Json

/-- The keys of a JSON object. -/
def Json.keys : Json → List String
  | .str _ => []
  | .obj fields => fields.map Prod.fst

/-- An HTTP response as the handler constructs it. -/
structure Response where
  status : Nat
  headers : List (String × String)
  body : Option Json

/-- The two CORS headers (source lines 4–7). -/
def corsHeaders : List (String × String) :=
  [("Access-Control-Allow-Origin", "*"),
   ("Access-Control-Allow-Headers", "authorization, x-client-info, apikey, content-type")]

/-- The headers of both JSON responses: the CORS headers spread first,
then the content type (source lines 160 and 168). -/
def jsonHeaders : List (String × String) :=
  corsHeaders ++ [("Content-Type", "application/json")]

/-- The whole request handler (source lines 9–171): the preflight branch
returns an empty 200 with only the CORS headers; otherwise the pipeline
runs and its outcome is mapped to the success envelope (implicit status
200) or, in `catch`, to the error envelope with status 500. -/
def handle (method : String) (env : Env) (w : World) : Response :=
  if method == "OPTIONS" then
    { status := 200, headers := corsHeaders, body := none }
  else
    match (runPipeline env w).1 with
    | .ok answer =>
      { status := 200, headers := jsonHeaders, body := some (.obj [("answer", .str answer)]) }
    | .error e =>
      { status := 500, headers := jsonHeaders, body := some (.obj [("error", .str e)]) }

/-! ### Concrete request fixtures -/

/-- An environment with both secrets set. -/
def baseEnv : Env := { serviceAccount := some "sa-json", lovableApiKey := some "api-key" }

/-- An environment with the service-account secret unset. -/
def envMissingSA : Env := { serviceAccount := none, lovableApiKey := some "api-key" }

/-- A fully successful world: a well-formed body, parsed credential,
signature, token, one discovered spreadsheet whose values are a header row
plus one 8-cell data row, and a completion answer. -/
def baseWorld : World :=
  { body := .ok ("pergunta", "folder1")
  , saParse := .ok { client_email := "a@b.c", private_key := "key" }
  , sign := .ok [0]
  , tokenExchange := .ok (some "tok")
  , driveList := .ok (some [{ id := "d1", name := "Jan" }])
  , sheetValues := fun _ =>
      .ok (some [["h1", "h2", "h3", "h4", "h5", "h6", "h7", "h8"],
                 ["a", "b", "c", "d", "e", "f", "g", "h"]])
  , ai := .ok { ok := true, status := 200, content := .ok "resposta" } }

/-- A two-document discovery: "Jan" has a header plus two valid rows,
"Feb" a header plus one valid and one 6-cell row. -/
def c1docs : List (DocumentRef × Option (List (List String))) :=
  [({ id := "1", name := "Jan" },
    some [["h1", "h2", "h3", "h4", "h5", "h6", "h7", "h8"],
          ["a", "b", "c", "d", "e", "f", "g", "h"],
          ["i", "j", "k", "l", "m", "n", "o", "p"]]),
   ({ id := "2", name := "Feb" },
    some [["h1", "h2", "h3", "h4", "h5", "h6", "h7", "h8"],
          ["q", "r", "s", "t", "u", "v", "w", "x"],
          ["1", "2", "3", "4", "5", "6"]])]

/-- The successful world except that every values response is absent. -/
def c8world : World := { baseWorld with sheetValues := fun _ => .ok none }

/-- The successful world except that the token-exchange fetch throws. -/
def c2world : World := { baseWorld with tokenExchange := .netErr "network error" }

/-- The successful world except that discovery returns an empty file list. -/
def c4world : World := { baseWorld with driveList := .ok (some []) }

/-- The successful world except that the request body is not valid JSON. -/
def c10world : World := { baseWorld with body := .error "invalid JSON" }

/-- Splitting a character list at every occurrence of a character: the
reading of an emitted table line back into fields. -/
def fieldsAux (sep : Char) : List Char → List String
  | [] => [""]
  | ch :: rest =>
    match fieldsAux sep rest with
    | [] => if ch = sep then ["", ""] else [String.singleton ch]
    | g :: gs =>
      if ch = sep then "" :: g :: gs else (String.singleton ch ++ g) :: gs

/-- The comma-separated fields of a line. -/
def commaFields (s : String) : List String := fieldsAux ',' s.toList

theorem docLines_eq_of_le8 (values : Option (List (List String))) (name : String)
    (h : ∀ row ∈ values.getD [], row.length ≤ 8) :
    docLines values name = specDocLines values name := by
  cases values with
  | none => simp [docLines, specDocLines]
  | some vs =>
    simp only [docLines, specDocLines, Option.getD_some]
    by_cases hlen : vs.length > 1
    · simp only [if_pos hlen]
      apply List.filterMap_congr
      intro row hrow
      have hmem : row ∈ vs := List.mem_of_mem_drop hrow
      have h8 := h row (by simpa using hmem)
      by_cases hk : 8 ≤ row.length
      · have : row.take 8 = row := List.take_of_length_le (by omega)
        simp [hk, rowLine, this]
      · simp [hk]
    · simp only [if_neg hlen]
      have : vs.drop 1 = [] := by
        cases vs with
        | nil => rfl
        | cons a t =>
          cases t with
          | nil => rfl
          | cons b t' => exfalso; apply hlen; simp
      simp [this]


theorem foldl_append_join {α : Type} (f : α → String) (docs : List α) (init : String) :
    docs.foldl (fun acc d => acc ++ f d) init = init ++ String.join (docs.map f) := by
  induction docs generalizing init with
  | nil =>
    apply String.ext
    simp
  | cons d rest ih =>
    simp only [List.foldl_cons, List.map_cons]
    rw [ih]
    apply String.ext
    simp

theorem consolidate_eq (docs : List (DocumentRef × Option (List (List String)))) :
    consolidate docs
      = (headerLine ++ "\n")
        ++ String.join (docs.map fun d => String.join (docLines d.2 d.1.name)) :=
  foldl_append_join _ docs _

theorem filterMapIf_length {α β : Type} (p : α → Prop) [DecidablePred p] (f : α → β)
    (l : List α) :
    (l.filterMap fun x => if p x then some (f x) else none).length
      = l.countP fun x => decide (p x) := by
  induction l with
  | nil => rfl
  | cons a t ih =>
    by_cases h : p a <;> simp [List.filterMap_cons, h, List.countP_cons, ih]

theorem length_docLines (values : Option (List (List String))) (name : String) :
    (docLines values name).length
      = ((values.getD []).drop 1).countP fun row => decide (8 ≤ row.length) := by
  cases values with
  | none => simp [docLines]
  | some vs =>
    simp only [docLines, Option.getD_some]
    by_cases h : vs.length > 1
    · rw [if_pos h, filterMapIf_length]
    · rw [if_neg h]
      have : vs.drop 1 = [] := List.drop_eq_nil_of_le (by omega)
      simp [this]

/-- C1: for every discovery result paired with its per-document values
response (each row within the A1:H range's 8 columns), the consolidated
table is the fixed header line first, then, per document in discovery
order, each post-header row with at least 8 cells serialized as its 8 raw
cell values followed by the document's name; rows with fewer than 8 cells
contribute nothing to the table or to the row count, and no document's
header row appears. -/
theorem c1_consolidated_table (docs : List (DocumentRef × Option (List (List String))))
    (hw : ∀ d ∈ docs, ∀ row ∈ d.2.getD [], row.length ≤ 8) :
    consolidate docs
      = (headerLine ++ "\n")
        ++ String.join (docs.map fun d => String.join (specDocLines d.2 d.1.name))
    ∧ (docs.map fun d => docRowCount d.2 d.1.name).sum
      = (docs.map fun d =>
          ((d.2.getD []).drop 1).countP fun row => decide (8 ≤ row.length)).sum := by
  constructor
  · rw [consolidate_eq]
    congr 1
    congr 1
    apply List.map_congr_left
    intro d hd
    rw [docLines_eq_of_le8 d.2 d.1.name (hw d hd)]
  · congr 1
    apply List.map_congr_left
    intro d _
    exact length_docLines d.2 d.1.name

/-- Closed witness for C1: the consolidation of `c1docs`. -/
theorem c1_consolidated_table_witness :
    (∀ d ∈ c1docs, ∀ row ∈ d.2.getD [], row.length ≤ 8)
    ∧ (consolidate c1docs
        = (headerLine ++ "\n")
          ++ String.join (c1docs.map fun d => String.join (specDocLines d.2 d.1.name))
      ∧ (c1docs.map fun d => docRowCount d.2 d.1.name).sum
        = (c1docs.map fun d =>
            ((d.2.getD []).drop 1).countP fun row => decide (8 ≤ row.length)).sum) :=
  ⟨by decide, c1_consolidated_table c1docs (by decide)⟩

/-- C8: a document whose values block is absent, or has no data row beyond
the header, contributes zero lines, and the read loop continues with the
remaining documents with the accumulator unchanged rather than erroring. -/
theorem c8_no_data_rows (sv : String → FetchResult (Option (List (List String))))
    (f : DocumentRef) (rest : List DocumentRef)
    (acc : String) (values : Option (List (List String)))
    (hv : sv f.id = .ok values)
    (hempty : values = none ∨ (values.getD []).length ≤ 1) :
    docLines values f.name = []
    ∧ readSheets sv (f :: rest) acc
        = ((readSheets sv rest acc).1, NetCall.sheetRead f.id :: (readSheets sv rest acc).2) := by
  have hdoc : docLines values f.name = [] := by
    rcases hempty with h | h
    · subst h; rfl
    · cases values with
      | none => rfl
      | some vs =>
        simp only [Option.getD_some] at h
        simp [docLines, show ¬vs.length > 1 by omega]
  refine ⟨hdoc, ?_⟩
  simp [readSheets, hv, hdoc, String.join]

/-- Closed witness for C8: in a world whose values responses are all
absent, the document "Jan" contributes nothing and the loop moves on. -/
theorem c8_no_data_rows_witness :
    c8world.sheetValues "d1" = .ok none
    ∧ (docLines (none : Option (List (List String))) "Jan" = []
      ∧ readSheets c8world.sheetValues [{ id := "d1", name := "Jan" }] (headerLine ++ "\n")
          = ((readSheets c8world.sheetValues [] (headerLine ++ "\n")).1,
             NetCall.sheetRead "d1"
               :: (readSheets c8world.sheetValues [] (headerLine ++ "\n")).2)) :=
  ⟨rfl, c8_no_data_rows c8world.sheetValues { id := "d1", name := "Jan" } []
    (headerLine ++ "\n") none rfl (Or.inl rfl)⟩

/-- C9: row serialization joins cells verbatim with commas, so some kept
8-cell row (one cell containing a comma) yields an emitted line that does
not read back as exactly 9 fields. -/
theorem c9_join_not_fieldwise_injective :
    ∃ (row : List String) (name : String),
      row.length = 8 ∧ (commaFields (rowLine row name)).length ≠ 9 := by
  refine ⟨["1,5", "b", "c", "d", "e", "f", "g", "h"], "Doc", rfl, ?_⟩
  decide


theorem count_tokenExchange_readSheets
    (sv : String → FetchResult (Option (List (List String))))
    (files : List DocumentRef) (acc : String) :
    (readSheets sv files acc).2.count NetCall.tokenExchange = 0 := by
  induction files generalizing acc with
  | nil => rfl
  | cons f rest ih =>
    simp only [readSheets]
    cases sv f.id with
    | netErr e => simp [List.count_cons]
    | ok values => simp [List.count_cons, ih]

theorem count_tokenExchange_le_one (env : Env) (w : World) :
    (runPipeline env w).2.count NetCall.tokenExchange ≤ 1 := by
  have e1 : (NetCall.driveList == NetCall.tokenExchange) = false := rfl
  have e2 : (NetCall.completion == NetCall.tokenExchange) = false := rfl
  have e3 : (NetCall.tokenExchange == NetCall.tokenExchange) = true := rfl
  obtain ⟨body, sap, sg, tok, dl, sv, ai⟩ := w
  cases body with
  | error e => simp [runPipeline]
  | ok b =>
    cases hsec : falsy env.serviceAccount || falsy env.lovableApiKey with
    | true => simp [runPipeline, hsec]
    | false =>
      cases sap with
      | error e => simp [runPipeline, hsec]
      | ok sa =>
        cases sg with
        | error e => simp [runPipeline, hsec]
        | ok s =>
          cases tok with
          | netErr e => simp [runPipeline, hsec, List.count_cons, e3]
          | ok t =>
            cases dl with
            | netErr e => simp [runPipeline, hsec, List.count_cons, e1, e3]
            | ok files? =>
              cases files? with
              | none => simp [runPipeline, hsec, List.count_cons, e1, e3]
              | some files =>
                by_cases hf : files.length = 0
                · simp [runPipeline, hsec, hf, List.count_cons, e1, e3]
                · cases hrs : readSheets sv files (headerLine ++ "\n") with
                  | mk res calls =>
                    have hz : calls.count NetCall.tokenExchange = 0 := by
                      have hcount := count_tokenExchange_readSheets sv files (headerLine ++ "\n")
                      rw [hrs] at hcount
                      exact hcount
                    cases res with
                    | error e =>
                      simp [runPipeline, hsec, hf, hrs, List.count_cons, List.count_append,
                        hz, e1, e2, e3]
                    | ok a =>
                      cases ai with
                      | netErr e =>
                        simp [runPipeline, hsec, hf, hrs, List.count_cons, List.count_append,
                          hz, e1, e2, e3]
                      | ok r =>
                        cases hro : r.ok with
                        | false =>
                          simp [runPipeline, hsec, hf, hrs, hro, List.count_cons,
                            List.count_append, hz, e1, e2, e3]
                        | true =>
                          cases hc : r.content with
                          | error e =>
                            simp [runPipeline, hsec, hf, hrs, hro, hc, List.count_cons,
                              List.count_append, hz, e1, e2, e3]
                          | ok ans =>
                            simp [runPipeline, hsec, hf, hrs, hro, hc, List.count_cons,
                              List.count_append, hz, e1, e2, e3]

/-- C2 counterexample: when the token endpoint's JSON carries no
access-token field (an `ok` fetch of `none`), the pipeline does not abort
before any later step — the drive listing, a sheet read and the completion
call are all still issued. -/
theorem c2_counterexample :
    ({ baseWorld with tokenExchange := .ok none } : World).tokenExchange = FetchResult.ok none
    ∧ (runPipeline baseEnv { baseWorld with tokenExchange := .ok none }).2
        = [NetCall.tokenExchange, NetCall.driveList, NetCall.sheetRead "d1",
           NetCall.completion] :=
  ⟨rfl, rfl⟩

/-- C2 amended: a thrown token-exchange fetch (network error or JSON-parse
failure) is fatal and aborts the pipeline before any later call, and the
token exchange is never retried; but an `ok` response — whatever its HTTP
status, and even without the access-token field — never aborts: discovery
is still reached. -/
theorem c2_token_exchange_failure (env : Env) (w : World) (e : String)
    (hbody : ∃ b, w.body = .ok b)
    (hsec : falsy env.serviceAccount = false ∧ falsy env.lovableApiKey = false)
    (hsa : ∃ sa, w.saParse = .ok sa)
    (hsig : ∃ s, w.sign = .ok s)
    (htok : w.tokenExchange = .netErr e) :
    ((runPipeline env w).1 = .error e
      ∧ (runPipeline env w).2 = [NetCall.tokenExchange])
    ∧ (∀ t : Option String,
        NetCall.driveList ∈ (runPipeline env { w with tokenExchange := .ok t }).2)
    ∧ ∀ (envx : Env) (wx : World),
        (runPipeline envx wx).2.count NetCall.tokenExchange ≤ 1 := by
  obtain ⟨b, hb⟩ := hbody
  obtain ⟨sa, hsap⟩ := hsa
  obtain ⟨s, hs⟩ := hsig
  have hor : (falsy env.serviceAccount || falsy env.lovableApiKey) = false := by
    rw [hsec.1, hsec.2]; rfl
  refine ⟨⟨?_, ?_⟩, ?_, fun envx wx => count_tokenExchange_le_one envx wx⟩
  · simp [runPipeline, hb, hor, hsap, hs, htok]
  · simp [runPipeline, hb, hor, hsap, hs, htok]
  · intro t
    cases hdl : w.driveList with
    | netErr e2 => simp [runPipeline, hb, hor, hsap, hs, hdl]
    | ok files? =>
      cases files? with
      | none => simp [runPipeline, hb, hor, hsap, hs, hdl]
      | some files =>
        by_cases hf : files.length = 0
        · simp [runPipeline, hb, hor, hsap, hs, hdl, hf]
        · cases hrs : readSheets w.sheetValues files (headerLine ++ "\n") with
          | mk res calls =>
            cases res with
            | error e2 => simp [runPipeline, hb, hor, hsap, hs, hdl, hf, hrs]
            | ok a =>
              cases hai : w.ai with
              | netErr e2 => simp [runPipeline, hb, hor, hsap, hs, hdl, hf, hrs, hai]
              | ok r =>
                cases hro : r.ok with
                | false => simp [runPipeline, hb, hor, hsap, hs, hdl, hf, hrs, hai, hro]
                | true =>
                  cases hc : r.content with
                  | error e2 =>
                    simp [runPipeline, hb, hor, hsap, hs, hdl, hf, hrs, hai, hro, hc]
                  | ok ans =>
                    simp [runPipeline, hb, hor, hsap, hs, hdl, hf, hrs, hai, hro, hc]

/-- Closed witness for the amended C2: a thrown token fetch in an
otherwise successful request. -/
theorem c2_token_exchange_failure_witness :
    ((∃ b, c2world.body = .ok b)
      ∧ (falsy baseEnv.serviceAccount = false ∧ falsy baseEnv.lovableApiKey = false)
      ∧ (∃ sa, c2world.saParse = .ok sa)
      ∧ (∃ s, c2world.sign = .ok s)
      ∧ c2world.tokenExchange = .netErr "network error")
    ∧ (((runPipeline baseEnv c2world).1 = .error "network error"
        ∧ (runPipeline baseEnv c2world).2 = [NetCall.tokenExchange])
      ∧ (∀ t : Option String,
          NetCall.driveList ∈ (runPipeline baseEnv { c2world with tokenExchange := .ok t }).2)
      ∧ ∀ (envx : Env) (wx : World),
          (runPipeline envx wx).2.count NetCall.tokenExchange ≤ 1) :=
  ⟨⟨⟨("pergunta", "folder1"), rfl⟩, ⟨rfl, rfl⟩,
    ⟨{ client_email := "a@b.c", private_key := "key" }, rfl⟩, ⟨[0], rfl⟩, rfl⟩,
    c2_token_exchange_failure baseEnv c2world "network error"
      ⟨("pergunta", "folder1"), rfl⟩ ⟨rfl, rfl⟩
      ⟨{ client_email := "a@b.c", private_key := "key" }, rfl⟩ ⟨[0], rfl⟩ rfl⟩

set_option maxRecDepth 8192 in
/-- C3: at a concrete credential, issuance time and 256-byte RSA
signature, the assertion is the three `btoa` parts joined by dots, but the
signature part contains the padding character `=`, which is outside the
base64url alphabet — `btoa` is standard base64, not the base64url encoding
the specification requires for a JWT-bearer assertion. -/
theorem c3_assertion_not_base64url :
    jwt "a@b.c" 1700000000 (List.replicate 256 0)
      = jwtHeader ++ "." ++ jwtClaimSet "a@b.c" 1700000000 ++ "."
        ++ b64EncodeBytes (List.replicate 256 0)
    ∧ '=' ∈ (b64EncodeBytes (List.replicate 256 0)).toList
    ∧ isBase64UrlChar '=' = false := by
  refine ⟨rfl, ?_, rfl⟩
  decide

/-- C4: in a request that reaches discovery, an absent or empty file list
yields the fatal discovery error and never a successful answer. -/
theorem c4_empty_discovery (env : Env) (w : World)
    (hbody : ∃ b, w.body = .ok b)
    (hsec : falsy env.serviceAccount = false ∧ falsy env.lovableApiKey = false)
    (hsa : ∃ sa, w.saParse = .ok sa)
    (hsig : ∃ s, w.sign = .ok s)
    (htok : ∃ t, w.tokenExchange = .ok t)
    (hdl : w.driveList = .ok none ∨ w.driveList = .ok (some [])) :
    (runPipeline env w).1 = .error "No spreadsheets found in folder"
    ∧ ∀ a, (runPipeline env w).1 ≠ .ok a := by
  obtain ⟨b, hb⟩ := hbody
  obtain ⟨sa, hsap⟩ := hsa
  obtain ⟨s, hs⟩ := hsig
  obtain ⟨t, ht⟩ := htok
  have hor : (falsy env.serviceAccount || falsy env.lovableApiKey) = false := by
    rw [hsec.1, hsec.2]; rfl
  have h1 : (runPipeline env w).1 = .error "No spreadsheets found in folder" := by
    rcases hdl with hdl | hdl <;> simp [runPipeline, hb, hor, hsap, hs, ht, hdl]
  exact ⟨h1, by rw [h1]; intro a h; cases h⟩

/-- Closed witness for C4: an otherwise successful request whose discovery
returns an empty file list. -/
theorem c4_empty_discovery_witness :
    ((∃ b, c4world.body = .ok b)
      ∧ (falsy baseEnv.serviceAccount = false ∧ falsy baseEnv.lovableApiKey = false)
      ∧ (∃ sa, c4world.saParse = .ok sa)
      ∧ (∃ s, c4world.sign = .ok s)
      ∧ (∃ t, c4world.tokenExchange = .ok t)
      ∧ (c4world.driveList = .ok none ∨ c4world.driveList = .ok (some [])))
    ∧ ((runPipeline baseEnv c4world).1 = .error "No spreadsheets found in folder"
      ∧ ∀ a, (runPipeline baseEnv c4world).1 ≠ .ok a) :=
  ⟨⟨⟨("pergunta", "folder1"), rfl⟩, ⟨rfl, rfl⟩,
    ⟨{ client_email := "a@b.c", private_key := "key" }, rfl⟩, ⟨[0], rfl⟩,
    ⟨some "tok", rfl⟩, Or.inr rfl⟩,
    c4_empty_discovery baseEnv c4world ⟨("pergunta", "folder1"), rfl⟩ ⟨rfl, rfl⟩
      ⟨{ client_email := "a@b.c", private_key := "key" }, rfl⟩ ⟨[0], rfl⟩
      ⟨some "tok", rfl⟩ (Or.inr rfl)⟩

/-- C5: on any non-preflight request, a pipeline error becomes status 500
with a JSON body holding exactly the `error` key and no `answer` key, a
success becomes the `answer` envelope with status 200, and every response
— preflight included — carries the CORS headers. -/
theorem c5_error_envelope (method : String) (env : Env) (w : World) :
    (method ≠ "OPTIONS" →
      (∀ e, (runPipeline env w).1 = .error e →
        handle method env w
          = { status := 500, headers := jsonHeaders,
              body := some (Json.obj [("error", Json.str e)]) })
      ∧ ∀ a, (runPipeline env w).1 = .ok a →
        handle method env w
          = { status := 200, headers := jsonHeaders,
              body := some (Json.obj [("answer", Json.str a)]) })
    ∧ corsHeaders ⊆ (handle method env w).headers := by
  constructor
  · intro hm
    have hm2 : (method == "OPTIONS") = false := by simp [hm]
    exact ⟨fun e he => by simp [handle, hm2, he], fun a ha => by simp [handle, hm2, ha]⟩
  · by_cases hm : (method == "OPTIONS") = true
    · simp [handle, hm]
    · cases hres : (runPipeline env w).1 with
      | ok a => simp [handle, hm, hres, jsonHeaders]
      | error e => simp [handle, hm, hres, jsonHeaders]

/-- Closed witness for C5: a POST with a missing secret receives the
500 error envelope. -/
theorem c5_error_envelope_witness :
    ("POST" ≠ "OPTIONS"
      ∧ (runPipeline envMissingSA baseWorld).1 = .error "Missing required secrets")
    ∧ handle "POST" envMissingSA baseWorld
        = { status := 500, headers := jsonHeaders,
            body := some (Json.obj [("error", Json.str "Missing required secrets")]) } :=
  ⟨⟨by decide, rfl⟩,
    ((c5_error_envelope "POST" envMissingSA baseWorld).1 (by decide)).1
      "Missing required secrets" rfl⟩

/-- C6: with a valid body, a falsy service-account secret (or gateway API
key) fails the request with "Missing required secrets" and an empty
outbound-call trace: no token exchange, listing, document read or
completion call is made. -/
theorem c6_missing_secrets (env : Env) (w : World)
    (hbody : ∃ b, w.body = .ok b)
    (hsec : falsy env.serviceAccount = true ∨ falsy env.lovableApiKey = true) :
    (runPipeline env w).1 = .error "Missing required secrets"
    ∧ (runPipeline env w).2 = [] := by
  obtain ⟨b, hb⟩ := hbody
  have hor : (falsy env.serviceAccount || falsy env.lovableApiKey) = true := by
    rcases hsec with h | h <;> simp [h]
  exact ⟨by simp [runPipeline, hb, hor], by simp [runPipeline, hb, hor]⟩

/-- Closed witness for C6: the unset service-account environment. -/
theorem c6_missing_secrets_witness :
    ((∃ b, baseWorld.body = .ok b)
      ∧ (falsy envMissingSA.serviceAccount = true ∨ falsy envMissingSA.lovableApiKey = true))
    ∧ ((runPipeline envMissingSA baseWorld).1 = .error "Missing required secrets"
      ∧ (runPipeline envMissingSA baseWorld).2 = []) :=
  ⟨⟨⟨("pergunta", "folder1"), rfl⟩, Or.inl rfl⟩,
    c6_missing_secrets envMissingSA baseWorld ⟨("pergunta", "folder1"), rfl⟩ (Or.inl rfl)⟩

/-- C7: a preflight (OPTIONS) request always receives a 200 with an empty
body and exactly the two CORS headers, whatever the environment and
collaborators would do. -/
theorem c7_preflight (env : Env) (w : World) :
    handle "OPTIONS" env w = { status := 200, headers := corsHeaders, body := none }
    ∧ corsHeaders
        = [("Access-Control-Allow-Origin", "*"),
           ("Access-Control-Allow-Headers",
            "authorization, x-client-info, apikey, content-type")] :=
  ⟨rfl, rfl⟩

/-- C10: every non-OPTIONS request — any verb, any body — receives exactly
one JSON response carrying the CORS headers, either the 200 `answer`
envelope or the 500 `error` envelope; in particular a non-JSON body yields
the error envelope rather than an escaped exception. -/
theorem c10_non_preflight_total (method : String) (env : Env) (w : World)
    (hm : method ≠ "OPTIONS") :
    ((∃ a, handle method env w
        = { status := 200, headers := jsonHeaders,
            body := some (Json.obj [("answer", Json.str a)]) })
      ∨ (∃ e, handle method env w
        = { status := 500, headers := jsonHeaders,
            body := some (Json.obj [("error", Json.str e)]) }))
    ∧ ∀ m, w.body = .error m →
        handle method env w
          = { status := 500, headers := jsonHeaders,
              body := some (Json.obj [("error", Json.str m)]) } := by
  have hm2 : (method == "OPTIONS") = false := by simp [hm]
  constructor
  · cases hres : (runPipeline env w).1 with
    | ok a => exact Or.inl ⟨a, by simp [handle, hm2, hres]⟩
    | error e => exact Or.inr ⟨e, by simp [handle, hm2, hres]⟩
  · intro m hb
    simp [handle, hm2, runPipeline, hb]

/-- Closed witness for C10: a GET whose body is not valid JSON. -/
theorem c10_non_preflight_total_witness :
    "GET" ≠ "OPTIONS"
    ∧ (((∃ a, handle "GET" baseEnv c10world
          = { status := 200, headers := jsonHeaders,
              body := some (Json.obj [("answer", Json.str a)]) })
        ∨ (∃ e, handle "GET" baseEnv c10world
          = { status := 500, headers := jsonHeaders,
              body := some (Json.obj [("error", Json.str e)]) }))
      ∧ ∀ m, c10world.body = .error m →
          handle "GET" baseEnv c10world
            = { status := 500, headers := jsonHeaders,
                body := some (Json.obj [("error", Json.str m)]) }) :=
  ⟨by decide, c10_non_preflight_total "GET" baseEnv c10world (by decide)⟩

end SalesBot
